import Mathlib

/-!
Shallow embedding of the password-validator repository.

`password_validator.py` implements `is_valid_password` as a short-circuit
sequence of eleven checks; `app.py` implements a seven-entry GUI checklist,
a strength score and a strength band.  Passwords are modelled as `List Char`
(Python strings are sequences of Unicode code points).  The Python
character-classification primitives that depend on the Unicode database
(`str.isupper`, `str.islower`, `str.isdigit`, `str.isspace`, `str.lower`,
and the regex classes `\s`, `\d`) are embedded faithfully on the Latin-1
range U+0000–U+00FF, which covers every password considered in the theorems
below; the regex ranges `[A-Z]`, `[a-z]` and the fixed special-character set
are pure code-point sets and are embedded exactly on all of Unicode.
-/

namespace PV

/-- Regex class `[A-Z]` from `is_valid_password`: the ASCII uppercase range
U+0041–U+005A. -/
def isAsciiUpper (c : Char) : Bool :=
  decide (65 ≤ c.toNat ∧ c.toNat ≤ 90)

/-- Regex class `[a-z]` from `is_valid_password`: the ASCII lowercase range
U+0061–U+007A. -/
def isAsciiLower (c : Char) : Bool :=
  decide (97 ≤ c.toNat ∧ c.toNat ≤ 122)

/-- Regex class `\d` (Unicode decimal digit, category Nd) used by
`is_valid_password` and `looks_human_like`; on the Latin-1 range the only
Nd characters are the ASCII digits U+0030–U+0039. -/
def isDigitChar (c : Char) : Bool :=
  decide (48 ≤ c.toNat ∧ c.toNat ≤ 57)

/-- Python whitespace classification on the Latin-1 range, shared by the
regex class `\s` (used in `is_valid_password`) and `str.isspace` (used in
the GUI checklist), which coincide in CPython: TAB..CR, FS..US, space,
NEL (U+0085) and NBSP (U+00A0). -/
def isSpaceChar (c : Char) : Bool :=
  decide ((9 ≤ c.toNat ∧ c.toNat ≤ 13) ∨ c.toNat = 32 ∨
    (28 ≤ c.toNat ∧ c.toNat ≤ 31) ∨ c.toNat = 133 ∨ c.toNat = 160)

/-- The fixed special-character set appearing both in the validator regex
and in the GUI checklist. -/
def SPECIAL_CHARS : List Char :=
  ['!', '@', '#', '$', '%', '^', '&', '*', '(', ')', ',', '.', '?', '"',
   ':', '\x7b', '\x7d', '|', '<', '>']

/-- Membership in the fixed special-character set. -/
def isSpecialChar (c : Char) : Bool :=
  SPECIAL_CHARS.contains c

/-- Python `str.isupper` on a single character, Latin-1 fragment: A–Z,
À–Ö (U+00C0–U+00D6) and Ø–Þ (U+00D8–U+00DE). -/
def pyIsUpper (c : Char) : Bool :=
  decide ((65 ≤ c.toNat ∧ c.toNat ≤ 90) ∨ (192 ≤ c.toNat ∧ c.toNat ≤ 214) ∨
    (216 ≤ c.toNat ∧ c.toNat ≤ 222))

/-- Python `str.islower` on a single character, Latin-1 fragment: a–z,
ª (U+00AA), µ (U+00B5), º (U+00BA), ß–ö (U+00DF–U+00F6) and
ø–ÿ (U+00F8–U+00FF). -/
def pyIsLower (c : Char) : Bool :=
  decide ((97 ≤ c.toNat ∧ c.toNat ≤ 122) ∨ c.toNat = 170 ∨ c.toNat = 181 ∨
    c.toNat = 186 ∨ (223 ≤ c.toNat ∧ c.toNat ≤ 246) ∨
    (248 ≤ c.toNat ∧ c.toNat ≤ 255))

/-- Python `str.isdigit` on a single character, Latin-1 fragment: the ASCII
digits together with the superscripts ² (U+00B2), ³ (U+00B3), ¹ (U+00B9). -/
def pyIsDigit (c : Char) : Bool :=
  decide ((48 ≤ c.toNat ∧ c.toNat ≤ 57) ∨ c.toNat = 178 ∨ c.toNat = 179 ∨
    c.toNat = 185)

/-- Python `str.lower` on a single character, Latin-1 fragment: A–Z map to
a–z and À–Þ (except ×, U+00D7) map down by 32; everything else is fixed. -/
def pyLowerChar (c : Char) : Char :=
  if 65 ≤ c.toNat ∧ c.toNat ≤ 90 then Char.ofNat (c.toNat + 32)
  else if (192 ≤ c.toNat ∧ c.toNat ≤ 222) ∧ c.toNat ≠ 215 then
    Char.ofNat (c.toNat + 32)
  else c

/-- The fixed denylist `COMMON_PASSWORDS` of `password_validator.py`. -/
def COMMON_PASSWORDS : List (List Char) :=
  ["password", "123456", "qwerty", "letmein", "admin", "iloveyou"].map
    String.data

/-- Does `s` start with `pat`? (helper for Python substring containment). -/
def startsWithList : List Char → List Char → Bool
  | _, [] => true
  | [], _ :: _ => false
  | c :: s, d :: t => c == d && startsWithList s t

/-- Python `pat in s` for strings: `pat` occurs as a contiguous substring
of `s`. -/
def containsSubstr (pat : List Char) : List Char → Bool
  | [] => startsWithList [] pat
  | c :: rest => startsWithList (c :: rest) pat || containsSubstr pat rest

/-- `has_excessive_repetition` from `password_validator.py`: some character
of the password occurs more than `len(password) // 2` times. -/
def has_excessive_repetition (p : List Char) : Bool :=
  p.dedup.any fun c => decide (p.length / 2 < p.count c)

/-- The fixed keyboard-pattern list of `has_keyboard_pattern`. -/
def KEYBOARD_PATTERNS : List (List Char) :=
  ["qwerty", "asdfgh", "zxcvbn", "12345", "password"].map String.data

/-- `has_keyboard_pattern` from `password_validator.py`: some fixed pattern
occurs as a substring of the lowercased password. -/
def has_keyboard_pattern (p : List Char) : Bool :=
  KEYBOARD_PATTERNS.any fun pat => containsSubstr pat (p.map pyLowerChar)

/-- The two fixed ambiguous-character groups of `has_ambiguous_characters`. -/
def AMBIGUOUS_GROUPS : List (List Char) :=
  [['l', '1', 'I'], ['O', '0', 'o']]

/-- `has_ambiguous_characters` from `password_validator.py`: the summed
occurrence count of some ambiguous group exceeds `len(password) // 2`. -/
def has_ambiguous_characters (p : List Char) : Bool :=
  AMBIGUOUS_GROUPS.any fun g =>
    decide (p.length / 2 < (g.map fun c => p.count c).sum)

/-- `looks_human_like` from `password_validator.py`: at least one letter
(regex `[A-Za-z]`), one digit (regex `\d`) and one special character. -/
def looks_human_like (p : List Char) : Bool :=
  (p.any fun c => isAsciiUpper c || isAsciiLower c) &&
    p.any isDigitChar && p.any isSpecialChar

/-- `is_valid_password` from `password_validator.py`: the short-circuit
sequence of seven baseline checks followed by four advanced checks, in
source order. -/
def is_valid_password (p : List Char) : Bool :=
  if COMMON_PASSWORDS.contains p then false
  else if p.length < 8 then false
  else if p.any isSpaceChar then false
  else if !p.any isAsciiUpper then false
  else if !p.any isAsciiLower then false
  else if !p.any isDigitChar then false
  else if !p.any isSpecialChar then false
  else if has_excessive_repetition p then false
  else if has_keyboard_pattern p then false
  else if has_ambiguous_characters p then false
  else if !looks_human_like p then false
  else true

/-- Rule 1 of §4.1 as implemented by the first baseline check: the password
is not on the fixed denylist. -/
def rule_not_common (p : List Char) : Bool :=
  !COMMON_PASSWORDS.contains p

/-- Rule 2: minimum length 8, the pass-condition of the `len(password) < 8`
check. -/
def rule_min_length (p : List Char) : Bool :=
  !decide (p.length < 8)

/-- Rule 3: no whitespace character (regex `\s`) anywhere. -/
def rule_no_whitespace (p : List Char) : Bool :=
  !p.any isSpaceChar

/-- Rule 4: at least one character matched by the regex `[A-Z]`. -/
def rule_has_upper (p : List Char) : Bool :=
  p.any isAsciiUpper

/-- Rule 5: at least one character matched by the regex `[a-z]`. -/
def rule_has_lower (p : List Char) : Bool :=
  p.any isAsciiLower

/-- Rule 6: at least one character matched by the regex `\d`. -/
def rule_has_digit (p : List Char) : Bool :=
  p.any isDigitChar

/-- Rule 7: at least one character of the fixed special set. -/
def rule_has_special (p : List Char) : Bool :=
  p.any isSpecialChar

/-- Rule 8: no excessive repetition. -/
def rule_no_repetition (p : List Char) : Bool :=
  !has_excessive_repetition p

/-- Rule 9: no keyboard pattern. -/
def rule_no_keyboard (p : List Char) : Bool :=
  !has_keyboard_pattern p

/-- Rule 10: no dominant ambiguous-character group. -/
def rule_no_ambiguous (p : List Char) : Bool :=
  !has_ambiguous_characters p

/-- Rule 11: human-like composition. -/
def rule_human_like (p : List Char) : Bool :=
  looks_human_like p

/-- GUI checklist entry "At least 8 characters" (`len(pwd) >= 8`). -/
def req_length (p : List Char) : Bool :=
  decide (8 ≤ p.length)

/-- GUI checklist entry "Contains uppercase letter"
(`any(c.isupper() for c in pwd)`). -/
def req_upper (p : List Char) : Bool :=
  p.any pyIsUpper

/-- GUI checklist entry "Contains lowercase letter"
(`any(c.islower() for c in pwd)`). -/
def req_lower (p : List Char) : Bool :=
  p.any pyIsLower

/-- GUI checklist entry "Contains digit" (`any(c.isdigit() for c in pwd)`). -/
def req_digit (p : List Char) : Bool :=
  p.any pyIsDigit

/-- GUI checklist entry "Contains special character", membership in the same
fixed set as the validator's rule 7. -/
def req_special (p : List Char) : Bool :=
  p.any isSpecialChar

/-- GUI checklist entry "No whitespace" (`not any(c.isspace() ...)`). -/
def req_no_space (p : List Char) : Bool :=
  !p.any isSpaceChar

/-- GUI checklist entry "Not a common password", against the same literal
denylist as the validator. -/
def req_not_common (p : List Char) : Bool :=
  !COMMON_PASSWORDS.contains p

/-- The `requirements` list of `PasswordValidatorGUI`: display text paired
with predicate, in source order. -/
def requirements : List (String × (List Char → Bool)) :=
  [("At least 8 characters", req_length),
   ("Contains uppercase letter", req_upper),
   ("Contains lowercase letter", req_lower),
   ("Contains digit", req_digit),
   ("Contains special character (!@#$%^&* etc.)", req_special),
   ("No whitespace", req_no_space),
   ("Not a common password", req_not_common)]

/-- The strength score of `on_password_change`:
`sum(check(pwd) for _, check in self.requirements)`. -/
def score (p : List Char) : Nat :=
  (requirements.map fun r => if r.2 p = true then 1 else 0).sum

/-- The strength band of `on_password_change`: `score <= 3` gives Weak,
`score <= 5` gives Medium, otherwise Strong. -/
def strengthLabel (s : Nat) : String :=
  if s ≤ 3 then "Weak" else if s ≤ 5 then "Medium" else "Strong"

example : is_valid_password "StrongPass1!".data = true := by decide
example : is_valid_password "password".data = false := by decide
example : is_valid_password "qwerty123".data = false := by decide
example : is_valid_password "Pass word1!".data = false := by decide
example : is_valid_password "NoSpecial123".data = false := by decide
example : is_valid_password "".data = false := by decide

/-- Two pointwise-equal predicates give equal `List.any` results. -/
theorem any_eq_of_pointwise (l : List Char) (f g : Char → Bool)
    (h : ∀ c ∈ l, f c = g c) : l.any f = l.any g := by
  induction l with
  | nil => rfl
  | cons a t ih => simp_all [List.any_cons]

/-- `List.any` is monotone along a pointwise implication. -/
theorem any_imp_of_pointwise (l : List Char) (f g : Char → Bool)
    (h : ∀ c, f c = true → g c = true) (hf : l.any f = true) :
    l.any g = true := by
  simp only [List.any_eq_true] at *
  obtain ⟨c, hc, hfc⟩ := hf
  exact ⟨c, hc, h c hfc⟩

set_option maxHeartbeats 2000000 in
/-- The short-circuit decision of `is_valid_password` equals the conjunction
of the eleven rule predicates. -/
theorem valid_eq_rules (p : List Char) :
    is_valid_password p =
      (rule_not_common p && rule_min_length p && rule_no_whitespace p &&
       rule_has_upper p && rule_has_lower p && rule_has_digit p &&
       rule_has_special p && rule_no_repetition p && rule_no_keyboard p &&
       rule_no_ambiguous p && rule_human_like p) := by
  unfold is_valid_password rule_not_common rule_min_length rule_no_whitespace
    rule_has_upper rule_has_lower rule_has_digit rule_has_special
    rule_no_repetition rule_no_keyboard rule_no_ambiguous rule_human_like
  repeat' split
  all_goals simp_all only [Bool.not_eq_true', Bool.not_eq_true, Bool.not_true,
    Bool.not_false, Bool.true_and, Bool.false_and, Bool.and_true,
    Bool.and_false, decide_eq_true_eq, decide_eq_false_iff_not, decide_True,
    decide_False, not_true, not_false_iff, eq_self_iff_true]

/-- C1.  `is_valid_password` accepts exactly when all eleven rule predicates
of §4.1 (not-common, length ≥ 8, no whitespace, uppercase, lowercase, digit,
special character, no excessive repetition, no keyboard pattern, no dominant
ambiguous group, human-like composition) evaluate true. -/
theorem valid_iff_all_rules (p : List Char) :
    is_valid_password p = true ↔
      (rule_not_common p = true ∧ rule_min_length p = true ∧
       rule_no_whitespace p = true ∧ rule_has_upper p = true ∧
       rule_has_lower p = true ∧ rule_has_digit p = true ∧
       rule_has_special p = true ∧ rule_no_repetition p = true ∧
       rule_no_keyboard p = true ∧ rule_no_ambiguous p = true ∧
       rule_human_like p = true) := by
  rw [valid_eq_rules]
  simp [Bool.and_eq_true, and_assoc]

/-- C2 counterexample.  The GUI uppercase, lowercase and digit checklist
entries use Python's Unicode classification while the validator's baseline
checks use the ASCII regexes `[A-Z]`, `[a-z]` and `\d`: they disagree at
À (U+00C0), µ (U+00B5) and ² (U+00B2). -/
theorem gui_matches_baseline_cex :
    (req_upper [Char.ofNat 192] = true ∧ rule_has_upper [Char.ofNat 192] = false) ∧
    (req_lower [Char.ofNat 181] = true ∧ rule_has_lower [Char.ofNat 181] = false) ∧
    (req_digit [Char.ofNat 178] = true ∧ rule_has_digit [Char.ofNat 178] = false) := by
  decide

/-- C2 (amended).  On passwords made of ASCII characters, each of the seven
GUI checklist predicates returns the same boolean as the corresponding
baseline check of `is_valid_password`. -/
theorem gui_matches_baseline_ascii (p : List Char)
    (h : ∀ c ∈ p, c.toNat < 128) :
    req_length p = rule_min_length p ∧ req_upper p = rule_has_upper p ∧
    req_lower p = rule_has_lower p ∧ req_digit p = rule_has_digit p ∧
    req_special p = rule_has_special p ∧
    req_no_space p = rule_no_whitespace p ∧
    req_not_common p = rule_not_common p := by
  refine ⟨?_, ?_, ?_, ?_, rfl, rfl, rfl⟩
  · rw [req_length, rule_min_length, ← decide_not, decide_eq_decide]
    omega
  · exact any_eq_of_pointwise p _ _ fun c hc => by
      have hlt := h c hc
      rw [pyIsUpper, isAsciiUpper, decide_eq_decide]
      omega
  · exact any_eq_of_pointwise p _ _ fun c hc => by
      have hlt := h c hc
      rw [pyIsLower, isAsciiLower, decide_eq_decide]
      omega
  · exact any_eq_of_pointwise p _ _ fun c hc => by
      have hlt := h c hc
      rw [pyIsDigit, isDigitChar, decide_eq_decide]
      omega

/-- C2 witness: the amended equivalence instantiated at the ASCII password
"Abcdef1!". -/
theorem gui_matches_baseline_ascii_witness :
    (∀ c ∈ "Abcdef1!".data, c.toNat < 128) ∧
    (req_length "Abcdef1!".data = rule_min_length "Abcdef1!".data ∧
     req_upper "Abcdef1!".data = rule_has_upper "Abcdef1!".data ∧
     req_lower "Abcdef1!".data = rule_has_lower "Abcdef1!".data ∧
     req_digit "Abcdef1!".data = rule_has_digit "Abcdef1!".data ∧
     req_special "Abcdef1!".data = rule_has_special "Abcdef1!".data ∧
     req_no_space "Abcdef1!".data = rule_no_whitespace "Abcdef1!".data ∧
     req_not_common "Abcdef1!".data = rule_not_common "Abcdef1!".data) :=
  ⟨by decide, gui_matches_baseline_ascii "Abcdef1!".data (by decide)⟩

/-- C3 counterexample.  À (U+00C0) is an uppercase letter under Python's
Unicode classification (`pyIsUpper`), yet the validator's uppercase rule,
built on the regex `[A-Z]`, fails on the string "À". -/
theorem upper_rule_unicode_cex :
    ¬(rule_has_upper [Char.ofNat 192] = true ↔
      List.any [Char.ofNat 192] pyIsUpper = true) := by
  decide

/-- C3 (amended).  The contains-uppercase rule inside `is_valid_password`
passes exactly when the password contains an ASCII uppercase letter
(code points 65–90), not any Unicode uppercase letter. -/
theorem upper_rule_ascii (p : List Char) :
    rule_has_upper p = true ↔ ∃ c ∈ p, 65 ≤ c.toNat ∧ c.toNat ≤ 90 := by
  simp [rule_has_upper, isAsciiUpper, List.any_eq_true]

/-- C4.  `has_excessive_repetition` fires exactly when some character occurs
more than `floor(len/2)` times; at length 8 a character occurring 4 times
does not fire it, while 5 occurrences do. -/
theorem excessive_repetition_spec :
    (∀ p : List Char,
      has_excessive_repetition p = true ↔ ∃ c, p.length / 2 < p.count c) ∧
    has_excessive_repetition "aaaabcde".data = false ∧
    has_excessive_repetition "aaaaabcd".data = true := by
  refine ⟨fun p => ?_, by decide, by decide⟩
  simp only [has_excessive_repetition, List.any_eq_true, List.mem_dedup,
    decide_eq_true_eq]
  constructor
  · rintro ⟨c, _, hc⟩
    exact ⟨c, hc⟩
  · rintro ⟨c, hc⟩
    have hmem : c ∈ p := by
      by_contra hn
      rw [List.count_eq_zero.mpr hn] at hc
      omega
    exact ⟨c, hmem, hc⟩

/-- C5.  `has_ambiguous_characters` fires exactly when the exact occurrence
counts of one of the fixed groups l,1,I or O,0,o sum to more than
`floor(len/2)`. -/
theorem ambiguous_spec (p : List Char) :
    has_ambiguous_characters p = true ↔
      (p.length / 2 < p.count 'l' + p.count '1' + p.count 'I' ∨
       p.length / 2 < p.count 'O' + p.count '0' + p.count 'o') := by
  simp only [has_ambiguous_characters, AMBIGUOUS_GROUPS, List.any_cons,
    List.any_nil, List.map_cons, List.map_nil, List.sum_cons, List.sum_nil,
    Bool.or_false, Bool.or_eq_true, decide_eq_true_eq]
  omega

/-- C6.  A password that passes baseline rules 4–7 (uppercase, lowercase,
digit, special character) also passes `looks_human_like`. -/
theorem human_like_of_baseline (p : List Char)
    (h4 : rule_has_upper p = true) (_h5 : rule_has_lower p = true)
    (h6 : rule_has_digit p = true) (h7 : rule_has_special p = true) :
    looks_human_like p = true := by
  rw [rule_has_upper] at h4
  rw [rule_has_digit] at h6
  rw [rule_has_special] at h7
  rw [looks_human_like]
  simp only [Bool.and_eq_true]
  refine ⟨⟨?_, h6⟩, h7⟩
  exact any_imp_of_pointwise p isAsciiUpper _ (fun c hc => by rw [hc]; rfl) h4

/-- C6 witness: `human_like_of_baseline` instantiated at "Aa1!". -/
theorem human_like_of_baseline_witness : looks_human_like "Aa1!".data = true :=
  human_like_of_baseline "Aa1!".data (by decide) (by decide) (by decide)
    (by decide)

/-- Summing `if b then 1 else 0` over a boolean list counts its `true`
entries. -/
theorem sum_ite_eq_count (l : List Bool) :
    (l.map fun b => if b = true then 1 else 0).sum = l.count true := by
  induction l with
  | nil => rfl
  | cons b t ih => cases b <;> simp_all [List.count_cons, Nat.add_comm]

/-- C7.  The GUI strength score is the number of the seven checklist
predicates that hold, and the band thresholds are: score ≤ 3 Weak,
4–5 Medium, ≥ 6 Strong. -/
theorem score_band_spec (p : List Char) :
    score p = (requirements.map fun r => r.2 p).count true ∧
    (strengthLabel (score p) = "Weak" ↔ score p ≤ 3) ∧
    (strengthLabel (score p) = "Medium" ↔ 4 ≤ score p ∧ score p ≤ 5) ∧
    (strengthLabel (score p) = "Strong" ↔ 6 ≤ score p) := by
  refine ⟨?_, ?_, ?_, ?_⟩
  · rw [score, ← sum_ite_eq_count, List.map_map]
    rfl
  all_goals
    rw [strengthLabel]
    split_ifs with h1 h2
  all_goals
    constructor
  all_goals
    intro hx
  all_goals
    first
      | rfl
      | omega
      | exact absurd hx (by decide)

/-- C8.  Every string is a legal input: the decision is a boolean, and the
empty string is rejected, failing in particular the minimum-length rule. -/
theorem valid_total_and_empty :
    (∀ p : List Char,
      is_valid_password p = false ∨ is_valid_password p = true) ∧
    is_valid_password [] = false ∧ rule_min_length [] = false :=
  ⟨fun p => (Bool.eq_false_or_eq_true _).symm, by decide, by decide⟩

/-- A character of the fixed special set is one of its twenty members. -/
theorem mem_of_isSpecialChar (c : Char) (h : isSpecialChar c = true) :
    c ∈ SPECIAL_CHARS := by
  rw [isSpecialChar] at h
  exact List.elem_iff.mp h

/-- No special character is an ASCII uppercase letter, an ASCII lowercase
letter or an ASCII digit. -/
theorem special_not_alnum (c : Char) (h : isSpecialChar c = true) :
    isAsciiUpper c = false ∧ isAsciiLower c = false ∧
    isDigitChar c = false := by
  have hm := mem_of_isSpecialChar c h
  fin_cases hm <;> decide

/-- ASCII uppercase and ASCII lowercase ranges are disjoint. -/
theorem upper_lower_disjoint (c : Char) (hu : isAsciiUpper c = true)
    (hl : isAsciiLower c = true) : False := by
  rw [isAsciiUpper, decide_eq_true_eq] at hu
  rw [isAsciiLower, decide_eq_true_eq] at hl
  omega

/-- ASCII uppercase letters are not ASCII digits. -/
theorem upper_digit_disjoint (c : Char) (hu : isAsciiUpper c = true)
    (hd : isDigitChar c = true) : False := by
  rw [isAsciiUpper, decide_eq_true_eq] at hu
  rw [isDigitChar, decide_eq_true_eq] at hd
  omega

/-- ASCII lowercase letters are not ASCII digits. -/
theorem lower_digit_disjoint (c : Char) (hl : isAsciiLower c = true)
    (hd : isDigitChar c = true) : False := by
  rw [isAsciiLower, decide_eq_true_eq] at hl
  rw [isDigitChar, decide_eq_true_eq] at hd
  omega

/-- C9.  An accepted password contains four pairwise-distinct characters:
an ASCII uppercase letter, an ASCII lowercase letter, a digit and a special
character. -/
theorem valid_four_distinct (p : List Char)
    (h : is_valid_password p = true) :
    ∃ c1 ∈ p, ∃ c2 ∈ p, ∃ c3 ∈ p, ∃ c4 ∈ p,
      isAsciiUpper c1 = true ∧ isAsciiLower c2 = true ∧
      isDigitChar c3 = true ∧ isSpecialChar c4 = true ∧
      c1 ≠ c2 ∧ c1 ≠ c3 ∧ c1 ≠ c4 ∧ c2 ≠ c3 ∧ c2 ≠ c4 ∧ c3 ≠ c4 := by
  rw [valid_eq_rules] at h
  simp only [Bool.and_eq_true] at h
  obtain ⟨⟨⟨⟨⟨⟨⟨⟨⟨⟨_, _⟩, _⟩, h4⟩, h5⟩, h6⟩, h7⟩, _⟩, _⟩, _⟩, _⟩ := h
  rw [rule_has_upper, List.any_eq_true] at h4
  rw [rule_has_lower, List.any_eq_true] at h5
  rw [rule_has_digit, List.any_eq_true] at h6
  rw [rule_has_special, List.any_eq_true] at h7
  obtain ⟨c1, hm1, hu⟩ := h4
  obtain ⟨c2, hm2, hl⟩ := h5
  obtain ⟨c3, hm3, hd⟩ := h6
  obtain ⟨c4, hm4, hs⟩ := h7
  obtain ⟨s1, s2, s3⟩ := special_not_alnum c4 hs
  refine ⟨c1, hm1, c2, hm2, c3, hm3, c4, hm4, hu, hl, hd, hs,
    ?_, ?_, ?_, ?_, ?_, ?_⟩
  · intro e
    exact upper_lower_disjoint c1 hu (e ▸ hl)
  · intro e
    exact upper_digit_disjoint c1 hu (e ▸ hd)
  · intro e
    rw [e, s1] at hu
    exact absurd hu (by decide)
  · intro e
    exact lower_digit_disjoint c2 hl (e ▸ hd)
  · intro e
    rw [e, s2] at hl
    exact absurd hl (by decide)
  · intro e
    rw [e, s3] at hd
    exact absurd hd (by decide)

/-- C9 witness: `valid_four_distinct` instantiated at the accepted password
"StrongPass1!". -/
theorem valid_four_distinct_witness :
    ∃ c1 ∈ "StrongPass1!".data, ∃ c2 ∈ "StrongPass1!".data,
    ∃ c3 ∈ "StrongPass1!".data, ∃ c4 ∈ "StrongPass1!".data,
      isAsciiUpper c1 = true ∧ isAsciiLower c2 = true ∧
      isDigitChar c3 = true ∧ isSpecialChar c4 = true ∧
      c1 ≠ c2 ∧ c1 ≠ c3 ∧ c1 ≠ c4 ∧ c2 ≠ c3 ∧ c2 ≠ c4 ∧ c3 ≠ c4 :=
  valid_four_distinct "StrongPass1!".data (by decide)

/-- C10.  An accepted password satisfies all seven GUI checklist predicates,
so its strength score is 7 and its displayed band is Strong. -/
theorem valid_gui_strong (p : List Char) (h : is_valid_password p = true) :
    req_length p = true ∧ req_upper p = true ∧ req_lower p = true ∧
    req_digit p = true ∧ req_special p = true ∧ req_no_space p = true ∧
    req_not_common p = true ∧ score p = 7 ∧
    strengthLabel (score p) = "Strong" := by
  rw [valid_eq_rules] at h
  simp only [Bool.and_eq_true] at h
  obtain ⟨⟨⟨⟨⟨⟨⟨⟨⟨⟨h1, h2⟩, h3⟩, h4⟩, h5⟩, h6⟩, h7⟩, _⟩, _⟩, _⟩, _⟩ := h
  have hL : req_length p = true := by
    rw [rule_min_length, Bool.not_eq_true', decide_eq_false_iff_not] at h2
    rw [req_length, decide_eq_true_eq]
    omega
  have hU : req_upper p = true := by
    rw [rule_has_upper] at h4
    exact any_imp_of_pointwise p isAsciiUpper pyIsUpper
      (fun c hc => by
        rw [isAsciiUpper, decide_eq_true_eq] at hc
        rw [pyIsUpper, decide_eq_true_eq]
        omega) h4
  have hLo : req_lower p = true := by
    rw [rule_has_lower] at h5
    exact any_imp_of_pointwise p isAsciiLower pyIsLower
      (fun c hc => by
        rw [isAsciiLower, decide_eq_true_eq] at hc
        rw [pyIsLower, decide_eq_true_eq]
        omega) h5
  have hD : req_digit p = true := by
    rw [rule_has_digit] at h6
    exact any_imp_of_pointwise p isDigitChar pyIsDigit
      (fun c hc => by
        rw [isDigitChar, decide_eq_true_eq] at hc
        rw [pyIsDigit, decide_eq_true_eq]
        omega) h6
  have hS : req_special p = true := h7
  have hW : req_no_space p = true := h3
  have hC : req_not_common p = true := h1
  have hscore : score p = 7 := by
    simp [score, requirements, hL, hU, hLo, hD, hS, hW, hC]
  exact ⟨hL, hU, hLo, hD, hS, hW, hC, hscore, by rw [hscore]; decide⟩

/-- C10 witness: `valid_gui_strong` instantiated at the accepted password
"Valid$Pass2". -/
theorem valid_gui_strong_witness :
    req_length "Valid$Pass2".data = true ∧
    req_upper "Valid$Pass2".data = true ∧
    req_lower "Valid$Pass2".data = true ∧
    req_digit "Valid$Pass2".data = true ∧
    req_special "Valid$Pass2".data = true ∧
    req_no_space "Valid$Pass2".data = true ∧
    req_not_common "Valid$Pass2".data = true ∧
    score "Valid$Pass2".data = 7 ∧
    strengthLabel (score "Valid$Pass2".data) = "Strong" :=
  valid_gui_strong "Valid$Pass2".data (by decide)

end PV
